import Mathlib

/-!
Shallow embedding of the TCGGrader guided capture-and-crop workflow, the
`CardAppraisalApp` React component (src/unnamed/part_001).  Pixel quantities
and crop coordinates are JavaScript numbers used only through exact arithmetic
here, so they are modelled as rationals.  Browser resources are made explicit:
`URL.createObjectURL` allocates a fresh handle from a counter and adds it to
the set of live handles, `URL.revokeObjectURL` removes it; toasts are an
append-only log; the single `fetch` call is modelled by an outcome parameter
and a counter of outbound requests.
-/

namespace TCGGrader

/-- Pixel geometry of a loaded img element: natural (full-resolution)
dimensions and rendered (displayed) dimensions, as read by `handleCropDone`
from `imageRef.current`. -/
structure ImageEl where
  naturalWidth : ℚ
  naturalHeight : ℚ
  width : ℚ
  height : ℚ
  deriving DecidableEq

/-- A completed crop rectangle in display-space pixel coordinates (the
react-image-crop `onComplete` value; its fields are read in `handleCropDone`
with non-null assertions). -/
structure CropRect where
  x : ℚ
  y : ℚ
  width : ℚ
  height : ℚ
  deriving DecidableEq

/-- The live (not yet completed) crop selection kept in the `crop` state
variable; initialised to unit percent, width 50, free aspect ratio. -/
structure CropSpec where
  unit : String
  x : Option ℚ
  y : Option ℚ
  width : Option ℚ
  height : Option ℚ
  deriving DecidableEq

/-- Geometry of the canvas draw performed by `handleCropDone` (part_001 lines
84-102): the canvas — and hence the produced image blob — is sized to the
display-space crop rectangle (`canvas.width = completedCrop.width`), while the
source rectangle handed to `drawImage` is the crop rectangle scaled into
native coordinates by `scaleX = naturalWidth / width` and
`scaleY = naturalHeight / height`. -/
structure CropOutput where
  canvasWidth : ℚ
  canvasHeight : ℚ
  srcX : ℚ
  srcY : ℚ
  srcW : ℚ
  srcH : ℚ
  deriving DecidableEq

def cropOutput (img : ImageEl) (c : CropRect) : CropOutput :=
  let scaleX := img.naturalWidth / img.width
  let scaleY := img.naturalHeight / img.height
  { canvasWidth := c.width
    canvasHeight := c.height
    srcX := c.x * scaleX
    srcY := c.y * scaleY
    srcW := c.width * scaleX
    srcH := c.height * scaleY }

/-- The cropped image blob produced by `canvas.toBlob`: its pixel dimensions
are the canvas dimensions, its content is the mapped source rectangle of the
native image (resampled to the canvas size). -/
def mkCroppedBlob (img : ImageEl) (c : CropRect) : CropOutput :=
  cropOutput img c

/-- The four fixed capture-slot roles, the `key` strings of the `steps`
array. -/
inductive StepKey
  | front
  | back
  | topLeft
  | bottomRight
  deriving DecidableEq

def stepKeyName : StepKey → String
  | .front => "front"
  | .back => "back"
  | .topLeft => "topLeft"
  | .bottomRight => "bottomRight"

structure Step where
  key : StepKey
  label : String
  description : String
  deriving DecidableEq

def steps : List Step :=
  [ { key := .front, label := "Upload Front of Card",
      description := "Take a clear photo of the front side" }
  , { key := .back, label := "Upload Back of Card",
      description := "Take a clear photo of the back side" }
  , { key := .topLeft, label := "Upload Top-Left Corner",
      description := "Focus on the top-left corner for detail" }
  , { key := .bottomRight, label := "Upload Bottom-Right Corner",
      description := "Focus on the bottom-right corner for detail" } ]

/-- A raw picker file: content type (`file.type` in the source; `type` is a
keyword here) and the data URL the FileReader produces from it. -/
structure RawFile where
  ftype : String
  dataUrl : String
  deriving DecidableEq

def imageTypeMarker : String := "image/"

/-- `String.startsWith`, embedded as a prefix test on the character
sequences of the two strings (the core-library version is equivalent but
does not reduce inside the kernel). -/
def strStartsWith (s p : String) : Bool :=
  p.data.isPrefixOf s.data

/-- An `UploadedImage`: the cropped blob and the object-URL preview handle
created for it. -/
structure UploadedImage where
  file : CropOutput
  preview : Nat
  deriving DecidableEq

/-- The `images` state object: at most one `UploadedImage` per slot. -/
structure Images where
  front : Option UploadedImage
  back : Option UploadedImage
  topLeft : Option UploadedImage
  bottomRight : Option UploadedImage
  deriving DecidableEq

def emptyImages : Images :=
  { front := none, back := none, topLeft := none, bottomRight := none }

def getSlot (im : Images) : StepKey → Option UploadedImage
  | .front => im.front
  | .back => im.back
  | .topLeft => im.topLeft
  | .bottomRight => im.bottomRight

def setSlot (im : Images) (k : StepKey) (v : UploadedImage) : Images :=
  match k with
  | .front => { im with front := some v }
  | .back => { im with back := some v }
  | .topLeft => { im with topLeft := some v }
  | .bottomRight => { im with bottomRight := some v }

/-- Preview handles of the currently occupied slots, in `Object.values`
order. -/
def currentPreviews (im : Images) : List Nat :=
  ([im.front, im.back, im.topLeft, im.bottomRight].filterMap
    (fun o => o.map (fun u => u.preview)))

/-- Number of occupied slots. -/
def occupiedCount (im : Images) : Nat :=
  (currentPreviews im).length

structure AppraisalResult where
  cardName : String
  centering : ℚ
  edges : ℚ
  corners : ℚ
  surface : ℚ
  edition : String
  setname : String
  overallGrade : ℚ
  estimatedValue : ℚ
  deriving DecidableEq

/-- A user-visible notice; `destructive` is true when the source passes
variant destructive to `toast`. -/
structure Toast where
  title : String
  description : String
  destructive : Bool
  deriving DecidableEq

def invalidFileToast : Toast :=
  { title := "Invalid file"
    description := "Please select an image file."
    destructive := true }

def cropSuccessToast (k : StepKey) : Toast :=
  { title := "Image cropped"
    description := stepKeyName k ++ " image cropped successfully."
    destructive := false }

def appraisalCompleteToast (g : ℚ) : Toast :=
  { title := "Appraisal complete!"
    description := "Your card has been appraised. Overall grade: " ++ toString g
    destructive := false }

def appraisalFailedToast : Toast :=
  { title := "Appraisal failed"
    description := "There was an error processing your request. Please try again."
    destructive := true }

def formResetToast : Toast :=
  { title := "Form reset"
    description := "You can now start a new appraisal."
    destructive := false }

/-- Outcome of the single `fetch` to the Appraisal Service: a 2xx response
with a parsed body, a non-2xx response (`!response.ok`, thrown and caught), or
a transport failure (`fetch` rejects, caught). -/
inductive FetchOutcome
  | success (data : AppraisalResult)
  | httpFailure
  | transportFailure
  deriving DecidableEq

def FetchOutcome.isFailure : FetchOutcome → Bool
  | .success _ => false
  | .httpFailure => true
  | .transportFailure => true

/-- The full component state, plus the explicit browser-resource and
observation model (handle counter, live-handle set, toast log, outbound
request counter). -/
structure AppState where
  currentStep : Nat
  images : Images
  isLoading : Bool
  result : Option AppraisalResult
  showCropper : Bool
  crop : CropSpec
  completedCrop : Option CropRect
  cropImageSrc : Option String
  imageRef : Option ImageEl
  pendingStepKey : Option StepKey
  nextHandle : Nat
  liveHandles : List Nat
  toasts : List Toast
  requestsSent : Nat
  deriving DecidableEq

def initialState : AppState :=
  { currentStep := 0
    images := emptyImages
    isLoading := false
    result := none
    showCropper := false
    crop := { unit := "%", x := none, y := none, width := some 50, height := none }
    completedCrop := none
    cropImageSrc := none
    imageRef := none
    pendingStepKey := none
    nextHandle := 0
    liveHandles := []
    toasts := []
    requestsSent := 0 }

def pushToast (t : Toast) (st : AppState) : AppState :=
  { st with toasts := st.toasts ++ [t] }

/-- `handleFileSelect` (lines 56-75).  The guard is the source's
`!file || !file.type.startsWith("image/")`; on failure a destructive Invalid
file toast is emitted and nothing else happens.  On success the FileReader
load event (next tick of the single-threaded event model) stores the data URL,
records the pending slot and opens the cropper. -/
def handleFileSelect (stepKey : StepKey) (file : Option RawFile) (st : AppState) :
    AppState :=
  match file with
  | none => pushToast invalidFileToast st
  | some f =>
    if strStartsWith f.ftype imageTypeMarker = false then
      pushToast invalidFileToast st
    else
      { st with cropImageSrc := some f.dataUrl
                pendingStepKey := some stepKey
                showCropper := true }

/-- `onImageLoaded` (lines 77-79): stores the loaded img element in
`imageRef`. -/
def onImageLoaded (img : ImageEl) (st : AppState) : AppState :=
  { st with imageRef := some img }

/-- `onComplete={setCompletedCrop}` (line 212). -/
def setCompletedCropState (c : Option CropRect) (st : AppState) : AppState :=
  { st with completedCrop := c }

/-- `onChange={newCrop => setCrop(newCrop)}` (line 211). -/
def setCropState (c : CropSpec) (st : AppState) : AppState :=
  { st with crop := c }

/-- `handleCropDone` (lines 81-121).  Returns unchanged state unless a
completed crop, a loaded image and a pending slot all exist.  Otherwise it
draws the crop (geometry in `cropOutput`), creates the blob and a fresh
object-URL preview handle for it, stores the `UploadedImage` in the pending
slot, closes the cropper, clears `cropImageSrc` and `pendingStepKey` (but not
`completedCrop` or `imageRef`), and toasts success.  The 2d-context and
`toBlob` environment successes are assumed, as in a functioning browser. -/
def handleCropDone (st : AppState) : AppState :=
  match st.completedCrop, st.imageRef, st.pendingStepKey with
  | some cc, some img, some key =>
      let blob := mkCroppedBlob img cc
      let preview := st.nextHandle
      pushToast (cropSuccessToast key)
        { st with images := setSlot st.images key { file := blob, preview := preview }
                  nextHandle := st.nextHandle + 1
                  liveHandles := st.liveHandles ++ [preview]
                  showCropper := false
                  cropImageSrc := none
                  pendingStepKey := none }
  | _, _, _ => st

/-- The Cancel button of the cropper modal (line 219): its onClick only does
`setShowCropper(false)`. -/
def cancelCrop (st : AppState) : AppState :=
  { st with showCropper := false }

/-- `allImagesUploaded` (lines 123-125). -/
def allImagesUploaded (st : AppState) : Bool :=
  st.images.front.isSome && st.images.back.isSome &&
    st.images.topLeft.isSome && st.images.bottomRight.isSome

/-- The synchronous prefix of `handleAppraise` (lines 127-143), up to and
including issuing the `fetch`: guard on `allImagesUploaded`, then
`setIsLoading(true)`, `setResult(null)`, package the four blobs and send one
request. -/
def handleAppraiseStart (st : AppState) : AppState :=
  if allImagesUploaded st = false then st
  else
    { st with isLoading := true
              result := none
              requestsSent := st.requestsSent + 1 }

/-- The continuation of `handleAppraise` after the `fetch` resolves (lines
145-165): on a 2xx response store the result and toast success; a non-2xx
response throws and lands, like a transport failure, in the catch block, which
toasts the destructive retry notice; the finally block clears `isLoading`. -/
def handleAppraiseFinish (outcome : FetchOutcome) (st : AppState) : AppState :=
  match outcome with
  | .success data =>
      { st with result := some data
                toasts := st.toasts ++ [appraisalCompleteToast data.overallGrade]
                isLoading := false }
  | .httpFailure =>
      { st with toasts := st.toasts ++ [appraisalFailedToast]
                isLoading := false }
  | .transportFailure =>
      { st with toasts := st.toasts ++ [appraisalFailedToast]
                isLoading := false }

/-- The whole of `handleAppraise` (lines 127-166) for a given fetch
outcome. -/
def handleAppraise (outcome : FetchOutcome) (st : AppState) : AppState :=
  if allImagesUploaded st = false then st
  else handleAppraiseFinish outcome (handleAppraiseStart st)

/-- The Appraise Card button (lines 349-367): rendered only when
`allImagesUploaded()`, disabled while `isLoading`; a click that gets through
runs the synchronous prefix of `handleAppraise`, leaving the request in
flight. -/
def clickAppraise (st : AppState) : AppState :=
  if allImagesUploaded st && !st.isLoading then handleAppraiseStart st else st

/-- `handleReset` (lines 168-184): revokes the object URL of every currently
occupied slot (removing those handles from the live set), then clears the
images, the result and the loading flag, returns to step 0 and toasts.  The
cropper state variables are not touched. -/
def handleReset (st : AppState) : AppState :=
  let previews := currentPreviews st.images
  { st with liveHandles := st.liveHandles.filter (fun h => !(previews.contains h))
            images := emptyImages
            result := none
            isLoading := false
            currentStep := 0
            toasts := st.toasts ++ [formResetToast] }

/-- `handleNext` (lines 186-190). -/
def handleNext (st : AppState) : AppState :=
  if st.currentStep < steps.length - 1 then
    { st with currentStep := st.currentStep + 1 }
  else st

/-- `handlePrevious` (lines 192-196). -/
def handlePrevious (st : AppState) : AppState :=
  if st.currentStep > 0 then
    { st with currentStep := st.currentStep - 1 }
  else st

/-- `isCurrentStepComplete` (lines 198-200): whether the active step's slot
holds an image.  An out-of-range index (unreachable) yields false. -/
def isCurrentStepComplete (st : AppState) : Bool :=
  match steps.get? st.currentStep with
  | some s => (getSlot st.images s.key).isSome
  | none => false

/-- `isLastStep` (line 201). -/
def isLastStep (st : AppState) : Bool :=
  st.currentStep == steps.length - 1

/-- The Next button (lines 312-319): disabled when
`!isCurrentStepComplete || isLastStep`; an enabled click runs
`handleNext`. -/
def clickNext (st : AppState) : AppState :=
  if isCurrentStepComplete st && !isLastStep st then handleNext st else st

/-! Concrete fixtures used by counterexamples and witnesses. -/

def sampleFile : RawFile := { ftype := "image/jpeg", dataUrl := "data-url-0" }

def textFile : RawFile := { ftype := "text/plain", dataUrl := "data-url-1" }

/-- A source image rendered at half its native resolution. -/
def sampleImg : ImageEl :=
  { naturalWidth := 400, naturalHeight := 600, width := 200, height := 300 }

def sampleCrop : CropRect := { x := 10, y := 10, width := 50, height := 80 }

/-- One complete pass of the capture sub-flow for slot `k`: pick a valid
file, let the cropper image load, complete a selection, press Done. -/
def commitTo (k : StepKey) (st : AppState) : AppState :=
  handleCropDone (setCompletedCropState (some sampleCrop)
    (onImageLoaded sampleImg (handleFileSelect k (some sampleFile) st)))

def sampleUploaded : UploadedImage :=
  { file := mkCroppedBlob sampleImg sampleCrop, preview := 0 }

def fullImages : Images :=
  { front := some sampleUploaded, back := some sampleUploaded,
    topLeft := some sampleUploaded, bottomRight := some sampleUploaded }

/-- A state with all four slots filled and no submission in flight. -/
def stComplete : AppState :=
  { initialState with images := fullImages, nextHandle := 1, liveHandles := [0] }

def sampleResult : AppraisalResult :=
  { cardName := "Sample Card", centering := 9, edges := 8, corners := 9,
    surface := 7, edition := "1st", setname := "Base", overallGrade := 17/2,
    estimatedValue := 42 }

lemma getSlot_setSlot_self (im : Images) (k : StepKey) (v : UploadedImage) :
    getSlot (setSlot im k v) k = some v := by
  cases k <;> rfl

/-! Claim C1: crop commit geometry. -/

/-- A 200x200 image rendered at 100x100, with a selection covering the whole
displayed image. -/
def c1imgScaled : ImageEl :=
  { naturalWidth := 200, naturalHeight := 200, width := 100, height := 100 }

def c1fullCrop : CropRect := { x := 0, y := 0, width := 100, height := 100 }

/-- C1 counterexample: committing a selection that covers the full displayed
image of a 200x200 source rendered at 100x100 produces a 100x100 blob — the
display-space selection size — not the 200x200 native size the claim asserts
(equivalently, not the selection size multiplied by the scale factor). -/
theorem c1_counterexample :
    c1fullCrop.x = 0 ∧ c1fullCrop.y = 0 ∧
    c1fullCrop.width = c1imgScaled.width ∧
    c1fullCrop.height = c1imgScaled.height ∧
    (cropOutput c1imgScaled c1fullCrop).canvasWidth = 100 ∧
    (cropOutput c1imgScaled c1fullCrop).canvasHeight = 100 ∧
    c1imgScaled.naturalWidth = 200 ∧
    (cropOutput c1imgScaled c1fullCrop).canvasWidth ≠
      c1fullCrop.width * (c1imgScaled.naturalWidth / c1imgScaled.width) ∧
    (cropOutput c1imgScaled c1fullCrop).canvasWidth ≠ c1imgScaled.naturalWidth := by
  refine ⟨rfl, rfl, rfl, rfl, rfl, rfl, rfl, ?_, ?_⟩ <;>
    norm_num [cropOutput, c1imgScaled, c1fullCrop]

/-- C1 (amended): `handleCropDone` maps the display-space selection into
native-pixel source coordinates using the scale factors
`naturalWidth / width` and `naturalHeight / height`, but the produced blob's
pixel dimensions equal the *display-space* selection width and height
(`canvas.width = completedCrop.width`), not the scaled ones; a selection
covering the full displayed image therefore reads exactly the full native
pixel rectangle while the output dimensions equal the displayed — not the
native — dimensions.  The blob, with a fresh preview handle, is stored in the
pending slot. -/
theorem c1_crop_commit_dimensions (img : ImageEl) (c : CropRect)
    (hw : img.width ≠ 0) (hh : img.height ≠ 0)
    (st : AppState) (k : StepKey)
    (hcc : st.completedCrop = some c) (hir : st.imageRef = some img)
    (hpk : st.pendingStepKey = some k) :
    (cropOutput img c).canvasWidth = c.width ∧
    (cropOutput img c).canvasHeight = c.height ∧
    (cropOutput img c).srcX = c.x * (img.naturalWidth / img.width) ∧
    (cropOutput img c).srcY = c.y * (img.naturalHeight / img.height) ∧
    (cropOutput img c).srcW = c.width * (img.naturalWidth / img.width) ∧
    (cropOutput img c).srcH = c.height * (img.naturalHeight / img.height) ∧
    (c.x = 0 → c.y = 0 → c.width = img.width → c.height = img.height →
      (cropOutput img c).srcX = 0 ∧ (cropOutput img c).srcY = 0 ∧
      (cropOutput img c).srcW = img.naturalWidth ∧
      (cropOutput img c).srcH = img.naturalHeight ∧
      (cropOutput img c).canvasWidth = img.width ∧
      (cropOutput img c).canvasHeight = img.height) ∧
    getSlot (handleCropDone st).images k =
      some { file := mkCroppedBlob img c, preview := st.nextHandle } := by
  refine ⟨rfl, rfl, rfl, rfl, rfl, rfl, ?_, ?_⟩
  · intro hx hy hcw hch
    refine ⟨?_, ?_, ?_, ?_, hcw, hch⟩
    · show c.x * (img.naturalWidth / img.width) = 0
      rw [hx]; ring
    · show c.y * (img.naturalHeight / img.height) = 0
      rw [hy]; ring
    · show c.width * (img.naturalWidth / img.width) = img.naturalWidth
      rw [hcw]; field_simp
    · show c.height * (img.naturalHeight / img.height) = img.naturalHeight
      rw [hch]; field_simp
  · simp only [handleCropDone, hcc, hir, hpk, pushToast]
    exact getSlot_setSlot_self _ _ _

/-- C1 witness: the amended theorem instantiated on a 400x600 image rendered
at 200x300 with a full-display selection in a concrete pre-commit state. -/
theorem c1_crop_commit_dimensions_witness :
    sampleImg.width ≠ 0 ∧ sampleImg.height ≠ 0 ∧
    (cropOutput sampleImg { x := 0, y := 0, width := 200, height := 300 }).srcW =
      sampleImg.naturalWidth ∧
    (cropOutput sampleImg { x := 0, y := 0, width := 200, height := 300 }).canvasWidth =
      sampleImg.width := by
  refine ⟨by norm_num [sampleImg], by norm_num [sampleImg], ?_, ?_⟩
  all_goals
    have h := c1_crop_commit_dimensions sampleImg
      { x := 0, y := 0, width := 200, height := 300 }
      (by norm_num [sampleImg]) (by norm_num [sampleImg])
      { initialState with
          completedCrop := some { x := 0, y := 0, width := 200, height := 300 }
          imageRef := some sampleImg
          pendingStepKey := some StepKey.front }
      StepKey.front rfl rfl rfl
    have hfull := h.2.2.2.2.2.2.1 rfl rfl rfl rfl
  · exact hfull.2.2.1
  · exact hfull.2.2.2.2.1

/-! Claim C2: preview-handle lifecycle on slot reassignment. -/

/-- The state after committing a crop into the front slot twice in a row
(the Change Photo path): the second commit replaces the front
`UploadedImage` without revoking the first preview handle. -/
def c2state : AppState := commitTo .front (commitTo .front initialState)

/-- C2: evaluating the code on the failing input — two consecutive commits
into the front slot.  Both preview handles are still live while only one
slot is occupied, so the number of live handles does not equal the number of
occupied slots: `handleCropDone` (lines 104-114) stores the replacement
without calling `URL.revokeObjectURL` on the handle it displaces. -/
theorem c2_reassign_leaks_handle :
    c2state.liveHandles = [0, 1] ∧
    occupiedCount c2state.images = 1 ∧
    c2state.liveHandles.length ≠ occupiedCount c2state.images := by
  refine ⟨rfl, rfl, ?_⟩
  decide

/-! Claim C5: cancelling the crop sub-flow. -/

/-- The state after opening the crop sub-flow for the front slot (valid file,
image loaded, selection completed) and pressing Cancel. -/
def c5state : AppState :=
  cancelCrop (setCompletedCropState (some sampleCrop)
    (onImageLoaded sampleImg (handleFileSelect .front (some sampleFile) initialState)))

/-- C5 counterexample: after Cancel the sub-flow is closed
(`showCropper = false`) yet the source image, the pending slot and the
completed selection all persist in state — the claim that cancel discards the
entire cropSubFlow (selection never persisted after the sub-flow closes) is
false on this concrete run. -/
theorem c5_counterexample :
    c5state.showCropper = false ∧
    c5state.pendingStepKey = some StepKey.front ∧
    c5state.completedCrop = some sampleCrop ∧
    c5state.cropImageSrc = some sampleFile.dataUrl := by
  refine ⟨rfl, rfl, rfl, rfl⟩

/-- C5 (amended): the Cancel button only clears the modal-visibility flag
(`setShowCropper(false)`); it has no side effects on the slot mapping, but
the sub-flow's source image, pending slot and completed selection persist in
state until the next file selection or crop commit overwrites them. -/
theorem c5_cancel_closes_modal_only (st : AppState) :
    cancelCrop st = { st with showCropper := false } ∧
    (cancelCrop st).images = st.images ∧
    (cancelCrop st).pendingStepKey = st.pendingStepKey ∧
    (cancelCrop st).completedCrop = st.completedCrop ∧
    (cancelCrop st).cropImageSrc = st.cropImageSrc :=
  ⟨rfl, rfl, rfl, rfl, rfl⟩

/-! Claim C3: at most one submission in flight. -/

/-- C3: while a submission is in flight (`isLoading = true`) the Appraise
button is disabled, so a second `submit()` is a no-op; and from a complete,
idle state, two submissions in quick succession send exactly one outbound
request — the first click enters the in-flight state and the second click
changes nothing. -/
theorem c3_submit_in_flight_noop (st : AppState) :
    (st.isLoading = true → clickAppraise st = st) ∧
    (allImagesUploaded st = true → st.isLoading = false →
      clickAppraise st = handleAppraiseStart st ∧
      (clickAppraise st).isLoading = true ∧
      clickAppraise (clickAppraise st) = clickAppraise st ∧
      (clickAppraise (clickAppraise st)).requestsSent = st.requestsSent + 1) := by
  constructor
  · intro h
    simp [clickAppraise, h]
  · intro hall hidle
    have h1 : clickAppraise st = handleAppraiseStart st := by
      simp [clickAppraise, hall, hidle]
    have h2 : handleAppraiseStart st =
        { st with isLoading := true, result := none,
                  requestsSent := st.requestsSent + 1 } := by
      simp [handleAppraiseStart, hall]
    have h3 : (clickAppraise st).isLoading = true := by rw [h1, h2]
    have h4 : clickAppraise (clickAppraise st) = clickAppraise st := by
      have hdef : clickAppraise (clickAppraise st) =
          if allImagesUploaded (clickAppraise st) && !(clickAppraise st).isLoading
          then handleAppraiseStart (clickAppraise st) else clickAppraise st := rfl
      rw [hdef, h3]
      simp
    refine ⟨h1, h3, h4, ?_⟩
    rw [h4, h1, h2]

/-- C3 witness: the theorem applied to the concrete complete idle state. -/
theorem c3_submit_in_flight_noop_witness :
    allImagesUploaded stComplete = true ∧ stComplete.isLoading = false ∧
    (clickAppraise (clickAppraise stComplete)).requestsSent =
      stComplete.requestsSent + 1 :=
  ⟨rfl, rfl, ((c3_submit_in_flight_noop stComplete).2 rfl rfl).2.2.2⟩

/-! Claim C4: advancement gating. -/

/-- C4: the Next button is disabled when the active slot is unfilled or the
last step is reached, so `advance()` is a no-op whenever the current slot is
unfilled; for every in-range step index, it increments the index exactly when
the active slot holds an image and the index is not the last one, and
otherwise changes nothing. -/
theorem c4_advance_guarded (st : AppState) :
    (isCurrentStepComplete st = false → clickNext st = st) ∧
    (st.currentStep < steps.length →
      clickNext st =
        if isCurrentStepComplete st = true ∧ st.currentStep ≠ steps.length - 1
        then { st with currentStep := st.currentStep + 1 }
        else st) := by
  constructor
  · intro h
    simp [clickNext, h]
  · intro hrange
    by_cases hc : isCurrentStepComplete st = true
    · by_cases hl : st.currentStep = steps.length - 1
      · have hlast : isLastStep st = true := by
          simp [isLastStep, hl]
        simp [clickNext, hc, hlast, hl]
      · have hlast : isLastStep st = false := by
          simp [isLastStep, hl]
        have hlt : st.currentStep < steps.length - 1 := by
          have h4 : steps.length = 4 := rfl
          omega
        simp [clickNext, hc, hlast, handleNext, hlt, hl]
    · have hc' : isCurrentStepComplete st = false := by
        cases h : isCurrentStepComplete st
        · rfl
        · exact absurd h hc
      simp [clickNext, hc', hc]

/-- C4 witness: in the initial state the front slot is unfilled and Next does
nothing; applied again at an in-range index to get the conditional form. -/
theorem c4_advance_guarded_witness :
    isCurrentStepComplete initialState = false ∧
    clickNext initialState = initialState ∧
    initialState.currentStep < steps.length ∧
    clickNext initialState =
      if isCurrentStepComplete initialState = true ∧
          initialState.currentStep ≠ steps.length - 1
      then { initialState with currentStep := initialState.currentStep + 1 }
      else initialState :=
  ⟨rfl, (c4_advance_guarded initialState).1 rfl, by decide,
    (c4_advance_guarded initialState).2 (by decide)⟩

/-! Claim C6: failed submission preserves slots and step and is retryable. -/

/-- C6: on a non-2xx response or a transport failure, `handleAppraise` leaves
every slot image and the current step index unchanged, clears the loading
flag, holds no result, appends the destructive retry notice, and the Appraise
action is immediately available again — a further click sends a new
request. -/
theorem c6_failure_preserves_slots (st : AppState) (outcome : FetchOutcome)
    (hall : allImagesUploaded st = true) (hf : outcome.isFailure = true) :
    (handleAppraise outcome st).images = st.images ∧
    (handleAppraise outcome st).currentStep = st.currentStep ∧
    (handleAppraise outcome st).isLoading = false ∧
    (handleAppraise outcome st).result = none ∧
    (handleAppraise outcome st).toasts = st.toasts ++ [appraisalFailedToast] ∧
    appraisalFailedToast.destructive = true ∧
    allImagesUploaded (handleAppraise outcome st) = true ∧
    (clickAppraise (handleAppraise outcome st)).requestsSent =
      (handleAppraise outcome st).requestsSent + 1 := by
  have hgen : ∀ s : AppState, allImagesUploaded s = true → s.isLoading = false →
      (clickAppraise s).requestsSent = s.requestsSent + 1 := by
    intro s h1 h2
    simp [clickAppraise, h1, h2, handleAppraiseStart]
  have hst : handleAppraise outcome st =
      { st with isLoading := false, result := none,
                requestsSent := st.requestsSent + 1,
                toasts := st.toasts ++ [appraisalFailedToast] } := by
    cases outcome with
    | success d => simp [FetchOutcome.isFailure] at hf
    | httpFailure =>
        simp [handleAppraise, hall, handleAppraiseStart, handleAppraiseFinish]
    | transportFailure =>
        simp [handleAppraise, hall, handleAppraiseStart, handleAppraiseFinish]
  rw [hst]
  exact ⟨rfl, rfl, rfl, rfl, rfl, rfl, hall, hgen _ hall rfl⟩

/-- C6 witness: the theorem at the concrete complete state and a non-2xx
response. -/
theorem c6_failure_preserves_slots_witness :
    allImagesUploaded stComplete = true ∧
    (handleAppraise .httpFailure stComplete).images = stComplete.images ∧
    (handleAppraise .httpFailure stComplete).currentStep = stComplete.currentStep ∧
    (handleAppraise .httpFailure stComplete).isLoading = false := by
  have h := c6_failure_preserves_slots stComplete .httpFailure rfl rfl
  exact ⟨rfl, h.1, h.2.1, h.2.2.1⟩

/-! Claim C7: non-image files are rejected with no state change. -/

/-- C7: selecting a file whose content type does not begin with the image
marker appends the destructive Invalid file notice and changes nothing else —
slots, step index, result and the crop sub-flow fields are all exactly as
before. -/
theorem c7_invalid_file_no_state_change (st : AppState) (k : StepKey)
    (rf : RawFile) (hbad : strStartsWith rf.ftype imageTypeMarker = false) :
    handleFileSelect k (some rf) st =
      { st with toasts := st.toasts ++ [invalidFileToast] } ∧
    invalidFileToast.destructive = true ∧
    (handleFileSelect k (some rf) st).showCropper = st.showCropper ∧
    (handleFileSelect k (some rf) st).images = st.images ∧
    (handleFileSelect k (some rf) st).currentStep = st.currentStep ∧
    (handleFileSelect k (some rf) st).result = st.result := by
  have h : handleFileSelect k (some rf) st =
      { st with toasts := st.toasts ++ [invalidFileToast] } := by
    simp [handleFileSelect, hbad, pushToast]
  exact ⟨h, rfl, by rw [h], by rw [h], by rw [h], by rw [h]⟩

/-- C7 witness: a text/plain file in the initial state. -/
theorem c7_invalid_file_no_state_change_witness :
    strStartsWith textFile.ftype imageTypeMarker = false ∧
    handleFileSelect .front (some textFile) initialState =
      { initialState with toasts := initialState.toasts ++ [invalidFileToast] } :=
  ⟨rfl, (c7_invalid_file_no_state_change initialState .front textFile rfl).1⟩

/-! Claim C9: a previous result is cleared at submission start and not
restored on failure. -/

/-- C9: `handleAppraise` clears any held result in its synchronous prefix
(`setResult(null)` before the fetch), and the failure path never restores it:
after a failed re-submission no result is held. -/
theorem c9_previous_result_not_restored (st : AppState) (r : AppraisalResult)
    (outcome : FetchOutcome) (hall : allImagesUploaded st = true)
    (_hres : st.result = some r) (hf : outcome.isFailure = true) :
    (handleAppraiseStart st).result = none ∧
    (handleAppraise outcome st).result = none := by
  constructor
  · simp [handleAppraiseStart, hall]
  · cases outcome with
    | success d => simp [FetchOutcome.isFailure] at hf
    | httpFailure =>
        simp [handleAppraise, hall, handleAppraiseStart, handleAppraiseFinish]
    | transportFailure =>
        simp [handleAppraise, hall, handleAppraiseStart, handleAppraiseFinish]

/-- A complete state that already displays an appraisal result. -/
def stWithResult : AppState := { stComplete with result := some sampleResult }

/-- C9 witness: the theorem at a concrete complete state holding a result,
with a transport failure. -/
theorem c9_previous_result_not_restored_witness :
    allImagesUploaded stWithResult = true ∧
    stWithResult.result = some sampleResult ∧
    (handleAppraise .transportFailure stWithResult).result = none :=
  ⟨rfl, rfl,
    (c9_previous_result_not_restored stWithResult sampleResult
      .transportFailure rfl rfl rfl).2⟩

/-! Claim C10: a dismissed picker behaves like a non-image file. -/

/-- C10: a file-selection event that delivers no file appends exactly the
same destructive Invalid file notice as a non-image file and changes nothing
else in the state. -/
theorem c10_dismissed_picker_same_notice (st : AppState) (k : StepKey) :
    handleFileSelect k none st =
      { st with toasts := st.toasts ++ [invalidFileToast] } ∧
    invalidFileToast.destructive = true ∧
    (∀ rf : RawFile, strStartsWith rf.ftype imageTypeMarker = false →
      handleFileSelect k (some rf) st = handleFileSelect k none st) := by
  refine ⟨rfl, rfl, ?_⟩
  intro rf h
  simp [handleFileSelect, h, pushToast]

/-- C10 witness: the theorem at the initial state and the front slot, with
the non-image file instantiating the inner hypothesis. -/
theorem c10_dismissed_picker_same_notice_witness :
    handleFileSelect .front none initialState =
      { initialState with toasts := initialState.toasts ++ [invalidFileToast] } ∧
    handleFileSelect .front (some textFile) initialState =
      handleFileSelect .front none initialState :=
  ⟨(c10_dismissed_picker_same_notice initialState .front).1,
    (c10_dismissed_picker_same_notice initialState .front).2.2 textFile rfl⟩

/-! Claim C8: reset and the initial state. -/

/-- A reachable state with all four slots filled in which the front slot was
captured twice (its first preview handle was leaked by the replacement). -/
def c8pre : AppState :=
  commitTo .front (commitTo .bottomRight (commitTo .topLeft
    (commitTo .back (commitTo .front initialState))))

def c8state : AppState := handleReset c8pre

/-- C8 counterexample: resetting from a reachable completed workflow in which
the front slot was re-captured yields empty slots, step 0 and no result, but
one preview handle (the replaced front image's, handle 0) is still live — the
state is not indistinguishable from the initial one, which has zero live
handles. -/
theorem c8_counterexample :
    allImagesUploaded c8pre = true ∧
    c8state.images = emptyImages ∧
    c8state.currentStep = 0 ∧
    c8state.result = none ∧
    c8state.liveHandles = [0] ∧
    c8state.liveHandles ≠ initialState.liveHandles := by
  refine ⟨rfl, rfl, rfl, rfl, rfl, ?_⟩
  decide

/-- C8 (amended): `handleReset` empties all slots, returns the step index to
0, clears the result and the loading flag, and releases every preview handle
of a currently occupied slot; only handles already leaked by earlier slot
replacements can survive, so the resulting state has zero live handles
exactly when every live handle belongs to a current slot (in particular
whenever no slot was ever re-assigned). -/
theorem c8_reset_restores_initial_modulo_leaks (st : AppState) :
    (handleReset st).images = emptyImages ∧
    (handleReset st).currentStep = 0 ∧
    (handleReset st).result = none ∧
    (handleReset st).isLoading = false ∧
    (handleReset st).liveHandles =
      st.liveHandles.filter
        (fun h => !((currentPreviews st.images).contains h)) ∧
    ((∀ h ∈ st.liveHandles, h ∈ currentPreviews st.images) →
      (handleReset st).liveHandles = []) := by
  refine ⟨rfl, rfl, rfl, rfl, rfl, ?_⟩
  intro hsub
  show st.liveHandles.filter
      (fun h => !((currentPreviews st.images).contains h)) = []
  rw [List.filter_eq_nil_iff]
  intro a ha
  simpa using hsub a ha

/-- C8 witness: the theorem at the initial state, where no handle was ever
created, so reset yields zero live handles. -/
theorem c8_reset_restores_initial_modulo_leaks_witness :
    (handleReset initialState).liveHandles = [] ∧
    (handleReset initialState).currentStep = 0 ∧
    (handleReset initialState).images = emptyImages :=
  ⟨(c8_reset_restores_initial_modulo_leaks initialState).2.2.2.2.2
      (by simp [initialState]),
    (c8_reset_restores_initial_modulo_leaks initialState).2.1,
    (c8_reset_restores_initial_modulo_leaks initialState).1⟩

end TCGGrader
